import Mathlib

/-!
Shallow embedding of the spatialbench evaluation harness and grading engine
(`src/spatialbench`), together with theorems checking the specification's
claims about it.  Python floats are modelled as rationals; JSON values
exchanged between the runner and the graders are modelled by `JVal`;
Python dictionaries are modelled as association lists with insertion-order
preserving, key-replacing insertion (`dictInsert`).
-/

namespace SpatialBench

/-- A JSON value as produced by `json.loads`: the shape of agent answers and
grader configs that flow through `EvalRunner.run` and the graders. -/
inductive JVal
  | null
  | bool (b : Bool)
  | num (q : ℚ)
  | str (s : String)
  | arr (elems : List JVal)
  | obj (fields : List (String × JVal))

/-- The Python exceptions the embedded code can raise. `notImplementedError`
is `BinaryGrader.evaluate_answer` (`graders/base.py` lines 26-27);
`typeErr` stands for the duck-typing errors a grader hits on answer values of
the wrong shape (their exact messages are not modelled — `EvalRunner.run`
catches every grader exception uniformly); `calledProcessError` is the
`subprocess.run(..., check=True)` failure of `latch cp` in
`download_single_dataset` (`harness/utils.py` lines 55-59). -/
inductive PyError
  | notImplementedError
  | typeErr
  | calledProcessError
deriving DecidableEq, Repr

/-- Outcome of calling a Python function that may raise. -/
inductive PyOutcome (α : Type)
  | ok (r : α)
  | raises (e : PyError)
deriving DecidableEq, Repr

/-- Python dict insertion on an association list: replace the value at an
existing key in place, otherwise append (insertion order preserved). -/
def dictInsert {α : Type} (m : List (String × α)) (k : String) (v : α) :
    List (String × α) :=
  if m.any (fun p => p.1 == k) then
    m.map (fun p => cond (p.1 == k) (p.1, v) p)
  else m ++ [(k, v)]

/-- Python truthiness of a JSON value (`bool(x)`). -/
def JVal.truthy : JVal → Bool
  | .null => false
  | .bool b => b
  | .num q => decide (q ≠ 0)
  | .str s => s ≠ ""
  | .arr l => !l.isEmpty
  | .obj f => !f.isEmpty

/-- A JSON value read where a number is needed; Python bools are ints, so
`true`/`false` count as `1`/`0`. Any other shape makes the grader's
arithmetic raise. -/
def JVal.asNum : JVal → Option ℚ
  | .num q => some q
  | .bool b => some (if b then 1 else 0)
  | _ => none

/-! ## Numeric Tolerance grader (`graders/numeric.py`) -/

/-- The `tolerance_config.get("type")` strings `NumericToleranceGrader`
dispatches on (`graders/numeric.py` lines 23-38); `other` is the final
`else` branch for any unrecognised string. -/
inductive ToleranceType
  | absolute
  | relative
  | minimum
  | maximum
  | other
deriving DecidableEq, Repr

/-- The string-to-type reading of `tolerance_config.get("type", "absolute")`. -/
def parseToleranceType : String → ToleranceType
  | "absolute" => .absolute
  | "relative" => .relative
  | "min" => .minimum
  | "max" => .maximum
  | _ => .other

/-- A grader error value: finite, or `float('inf')` as used by
`graders/numeric.py` for the relative mode with `expected == 0` and for
unknown tolerance types. -/
inductive ErrorValue
  | fin (q : ℚ)
  | inf
deriving DecidableEq, Repr

/-- One entry of the `tolerances` config: `{"type": ..., "value": ...}`,
after the defaults `"absolute"` and `0` were applied. -/
structure ToleranceConfig where
  type : ToleranceType
  value : ℚ
deriving DecidableEq, Repr

/-- One field's check inside `NumericToleranceGrader.evaluate_answer`
(`graders/numeric.py` lines 23-38): the returned pair is
(`{field}_error`, `within_tolerance`). In the relative mode with
`expected == 0` the error is `inf` and `inf <= tolerance_value` is false. -/
def checkTolerance (actual expected : ℚ) (tol : ToleranceConfig) :
    ErrorValue × Bool :=
  match tol.type with
  | .absolute =>
      (.fin |actual - expected|, decide (|actual - expected| ≤ tol.value))
  | .relative =>
      if expected = 0 then (.inf, false)
      else (.fin (|actual - expected| / |expected|),
            decide (|actual - expected| / |expected| ≤ tol.value))
  | .minimum =>
      (.fin (if actual < expected then expected - actual else 0),
       decide (expected ≤ actual))
  | .maximum =>
      (.fin (if expected < actual then actual - expected else 0),
       decide (actual ≤ expected))
  | .other => (.inf, false)

/-- Per-field outcome in the numeric grader: `missing` is the
`"Missing field"` failure branch, `checked` records the `{field}_error` and
`{field}_pass` metrics. -/
inductive NumericFieldOutcome
  | missing
  | checked (error : ErrorValue) (pass : Bool)
deriving DecidableEq, Repr

/-- Whether a field's outcome leaves the running `all_pass` flag true. -/
def NumericFieldOutcome.passB : NumericFieldOutcome → Bool
  | .missing => false
  | .checked _ ok => ok

/-- The numeric grader's config: `ground_truth` is a JSON object of numeric
fields and `tolerances` maps fields to their tolerance entries. -/
structure NumericConfig where
  ground_truth : List (String × ℚ)
  tolerances : List (String × ToleranceConfig)
deriving DecidableEq, Repr

/-- The default-applying lookup `tolerances.get(field, {"type": "absolute", "value": 0})`
(`graders/numeric.py` line 19). -/
def toleranceFor (tolerances : List (String × ToleranceConfig)) (f : String) :
    ToleranceConfig :=
  (List.lookup f tolerances).getD ⟨.absolute, 0⟩

/-- The numeric grader's result: `passed` plus the per-field outcomes that
populate `metrics`. -/
structure NumericGraderResult where
  passed : Bool
  fields : List (String × NumericFieldOutcome)
deriving DecidableEq, Repr

/-- One iteration of the field loop in `NumericToleranceGrader.evaluate_answer`
(`graders/numeric.py` lines 12-52), carrying the running
`(all_pass, field outcomes)` exactly as the Python loop does: a missing
field clears `all_pass` and records no check; a present field is checked
and its result ANDed into `all_pass`. -/
def numericFieldStep (agent_answer : List (String × ℚ))
    (tolerances : List (String × ToleranceConfig))
    (acc : Bool × List (String × NumericFieldOutcome)) (fe : String × ℚ) :
    Bool × List (String × NumericFieldOutcome) :=
  match List.lookup fe.1 agent_answer with
  | none => (false, acc.2 ++ [(fe.1, NumericFieldOutcome.missing)])
  | some actual =>
      let c := checkTolerance actual fe.2 (toleranceFor tolerances fe.1)
      (acc.1 && c.2, acc.2 ++ [(fe.1, NumericFieldOutcome.checked c.1 c.2)])

/-- Embeds `NumericToleranceGrader.evaluate_answer` (`graders/numeric.py` lines
4-61): iterate the configured ground-truth fields; a field missing from the
agent answer or failing its check clears the running `all_pass` flag, which
becomes `passed`. -/
def NumericToleranceGrader.evaluateAnswer (agent_answer : List (String × ℚ))
    (config : NumericConfig) : NumericGraderResult :=
  let out := config.ground_truth.foldl
    (numericFieldStep agent_answer config.tolerances) (true, [])
  { passed := out.1, fields := out.2 }

/-! ## Label Set Jaccard grader (`graders/label_set.py`) -/

/-- The Jaccard index as `LabelSetJaccardGrader.evaluate` computes it
(`graders/label_set.py` lines 30-33):
`len(intersection) / len(union) if len(union) > 0 else 0.0`, with
`intersection = ground_truth_labels & predicted_labels` and
`union = ground_truth_labels | predicted_labels`. -/
def jaccardIndex (predicted ground_truth : Finset String) : ℚ :=
  let intersection := ground_truth ∩ predicted
  let union := ground_truth ∪ predicted
  if 0 < union.card then (intersection.card : ℚ) / (union.card : ℚ) else 0

/-- The pass verdict of `LabelSetJaccardGrader.evaluate`
(`graders/label_set.py` line 35): `jaccard_index >= pass_threshold`. -/
def LabelSetJaccardGrader.grade (predicted ground_truth : Finset String)
    (pass_threshold : ℚ) : Bool :=
  decide (pass_threshold ≤ jaccardIndex predicted ground_truth)

/-! ## Distribution Comparison grader (`graders/distribution.py`) -/

/-- The entries of the `failures` list the distribution grader accumulates
(`graders/distribution.py` lines 36-81), by kind: the total-cells failure,
a ground-truth category missing from the answer, a category outside
tolerance, and the informational report of categories present only in the
answer. -/
inductive DistFailure
  | totalCells
  | missingCategory (cell_type : String)
  | categoryOutOfTolerance (cell_type : String)
  | extraTypes (l : List String)
deriving DecidableEq, Repr

/-- The distribution grader's config, with the `.get` defaults already
applied: `gt_total_cells` is `ground_truth.get("total_cells")` (checked only
when present), `total_cells_tol` is `tolerances.get("total_cells", {}).get("value", 0)`
and `pct_tolerance` is `tolerances.get("cell_type_percentages", {}).get("value", 3.0)`. -/
structure DistributionConfig where
  gt_total_cells : Option ℚ
  gt_distribution : List (String × ℚ)
  total_cells_tol : ℚ
  pct_tolerance : ℚ
deriving DecidableEq, Repr

/-- The agent answer as the distribution grader reads it; `none` fields are
the missing-required-field early returns (`graders/distribution.py`
lines 15-29). -/
structure DistributionAnswerJ where
  total_cells : Option ℚ
  cell_type_distribution : Option (List (String × ℚ))

/-- The graded result: `passed` (the `all_pass` flag), the recorded
`total_cells_pass` metric (absent when the config has no total), the
per-ground-truth-category `{cell_type}_pass` metrics, the
`extra_cell_types` metric and the `failures` list. -/
structure DistributionResult where
  passed : Bool
  total_cells_pass : Option Bool
  category_pass : List (String × Bool)
  extra_cell_types : List String
  failures : List DistFailure
deriving DecidableEq, Repr

/-- Outcome of `DistributionComparisonGrader.evaluate_answer`: either a
missing-required-field failing result (`passed=False`) or a graded result. -/
inductive DistributionOutcome
  | missingField (field : String)
  | graded (r : DistributionResult)
deriving DecidableEq, Repr

/-- The `passed` of a distribution outcome: the missing-field early returns
carry `passed=False`. -/
def DistributionOutcome.passed : DistributionOutcome → Bool
  | .missingField _ => false
  | .graded r => r.passed

/-- One ground-truth category's check (`graders/distribution.py` lines
53-76): the category must be present in the agent distribution and its
absolute difference within `pct_tolerance`. -/
def categoryCheck (agent_dist : List (String × ℚ)) (pct_tolerance : ℚ)
    (cell_type : String) (expected_pct : ℚ) : Bool :=
  match List.lookup cell_type agent_dist with
  | none => false
  | some actual_pct => decide (|actual_pct - expected_pct| ≤ pct_tolerance)

/-- The sorted set difference
`set(agent_distribution.keys()) - set(gt_distribution.keys())`
(`graders/distribution.py` lines 78-80). -/
def extraCellTypes (agent_dist gt_dist : List (String × ℚ)) : List String :=
  ((agent_dist.map Prod.fst).toFinset \ (gt_dist.map Prod.fst).toFinset).sort (· ≤ ·)

/-- The category loop of `DistributionComparisonGrader.evaluate_answer`
(`graders/distribution.py` lines 52-76), carrying the running
`(all_pass, failures, per-category metrics)` exactly as the Python loop
does. -/
def distCategoryStep (agent_dist : List (String × ℚ)) (pct_tolerance : ℚ)
    (acc : Bool × List DistFailure × List (String × Bool)) (ce : String × ℚ) :
    Bool × List DistFailure × List (String × Bool) :=
  match List.lookup ce.1 agent_dist with
  | none =>
      (false, acc.2.1 ++ [DistFailure.missingCategory ce.1], acc.2.2 ++ [(ce.1, false)])
  | some actual_pct =>
      let ok := decide (|actual_pct - ce.2| ≤ pct_tolerance)
      (acc.1 && ok,
       acc.2.1 ++ (if ok then [] else [DistFailure.categoryOutOfTolerance ce.1]),
       acc.2.2 ++ [(ce.1, ok)])

/-- Embeds `DistributionComparisonGrader.evaluate_answer` (`graders/distribution.py`
lines 4-101): missing required fields return a failing result; otherwise the
total-cells check (only when the config carries a ground-truth total) and
the per-ground-truth-category checks run, each clearing the `all_pass`
flag on failure, and categories present only in the answer are appended to
`metrics`/`failures` without touching `all_pass`. -/
def DistributionComparisonGrader.evaluateAnswer (ans : DistributionAnswerJ)
    (cfg : DistributionConfig) : DistributionOutcome :=
  match ans.total_cells, ans.cell_type_distribution with
  | none, _ => .missingField "total_cells"
  | some _, none => .missingField "cell_type_distribution"
  | some agent_total, some agent_dist =>
      let total_pass : Option Bool :=
        cfg.gt_total_cells.map (fun gt => decide (|agent_total - gt| ≤ cfg.total_cells_tol))
      let start_pass := total_pass.getD true
      let start_failures := if total_pass = some false then [DistFailure.totalCells] else []
      let loop := cfg.gt_distribution.foldl
        (distCategoryStep agent_dist cfg.pct_tolerance) (start_pass, start_failures, [])
      let extra := extraCellTypes agent_dist cfg.gt_distribution
      .graded
        { passed := loop.1
          total_cells_pass := total_pass
          category_pass := loop.2.2
          extra_cell_types := extra
          failures := loop.2.1 ++ (if extra = [] then [] else [DistFailure.extraTypes extra]) }

/-! ## Marker gene graders (`graders/marker_gene.py`) -/

/-- Python's `str.lower()` on a gene symbol, character-wise
(`Char.toLower` lower-cases the ASCII range, which covers gene symbols). -/
def pyLower (s : String) : String :=
  String.mk (s.data.map Char.toLower)

/-- The lower-cased set a gene list induces (`set(g.lower() for g in genes)`,
`graders/marker_gene.py` lines 33-34). -/
def lowerSet (genes : List String) : Finset String :=
  (genes.map pyLower).toFinset

/-- Result of the precision/recall computation
(`graders/marker_gene.py` lines 30-45). -/
structure PRResult where
  k : ℕ
  precision_at_k : ℚ
  recall_at_k : ℚ
  precision_pass : Bool
  recall_pass : Bool
  passed : Bool
deriving DecidableEq, Repr

/-- The scoring core of `MarkerGenePrecisionRecallGrader.evaluate`
(`graders/marker_gene.py` lines 30-45): `k = len(predicted_genes)`,
case-insensitive true positives, `precision@k = len(TP)/k if k > 0 else 0.0`,
`recall@k = len(TP)/len(canonical_set) if len(canonical_set) > 0 else 0.0`,
and `passed = precision_pass and recall_pass`. -/
def MarkerGenePrecisionRecallGrader.grade
    (predicted_genes canonical_markers : List String)
    (precision_threshold recall_threshold : ℚ) : PRResult :=
  let k := predicted_genes.length
  let canonical_set := lowerSet canonical_markers
  let predicted_set := lowerSet predicted_genes
  let true_positives := canonical_set ∩ predicted_set
  let precision_at_k : ℚ :=
    if 0 < k then (true_positives.card : ℚ) / (k : ℚ) else 0
  let recall_at_k : ℚ :=
    if 0 < canonical_set.card then (true_positives.card : ℚ) / (canonical_set.card : ℚ) else 0
  let precision_pass := decide (precision_threshold ≤ precision_at_k)
  let recall_pass := decide (recall_threshold ≤ recall_at_k)
  { k := k
    precision_at_k := precision_at_k
    recall_at_k := recall_at_k
    precision_pass := precision_pass
    recall_pass := recall_pass
    passed := precision_pass && recall_pass }

/-- Result of the separation scoring (`graders/marker_gene.py` lines
187-263), mirroring the metrics of the same names. -/
structure SepResult where
  num_genes : ℕ
  mean_auroc_agent : ℚ
  mean_auroc_computed : ℚ
  fraction_high : ℚ
  mean_auroc_pass : Bool
  fraction_high_pass : Bool
  passed : Bool
deriving DecidableEq, Repr

/-- The `gene_aurocs` dict built from `per_gene_stats`
(`graders/marker_gene.py` lines 196-212): later entries for the same gene
overwrite earlier ones. -/
def buildGeneAurocs (per_gene_stats : List (String × ℚ)) : List (String × ℚ) :=
  per_gene_stats.foldl (fun m s => dictInsert m s.1 s.2) []

/-- The scoring core of `MarkerGeneSeparationGrader.evaluate`
(`graders/marker_gene.py` lines 187-263) on an already-shaped
`per_gene_stats` list (the missing-field and per-element shape validations
of lines 160-211 return failing results before this point; the empty-list
validation of lines 188-194 is the `.error` branch here). The pass decision
uses the agent-reported mean; the recomputed mean is only recorded. -/
def MarkerGeneSeparationGrader.grade (per_gene_stats : List (String × ℚ))
    (agent_mean_auroc mean_auroc_threshold fraction_high_threshold per_gene_cutoff : ℚ) :
    Except String SepResult :=
  if per_gene_stats.length = 0 then .error "per_gene_stats is empty"
  else
    let gene_aurocs := buildGeneAurocs per_gene_stats
    let num_genes := per_gene_stats.length
    let computed_mean := (gene_aurocs.map Prod.snd).sum / (gene_aurocs.length : ℚ)
    let high := gene_aurocs.filter (fun p => per_gene_cutoff ≤ p.2)
    let fraction_high := (high.length : ℚ) / (num_genes : ℚ)
    let mean_pass := decide (mean_auroc_threshold ≤ agent_mean_auroc)
    let fraction_pass := decide (fraction_high_threshold ≤ fraction_high)
    .ok
      { num_genes := num_genes
        mean_auroc_agent := agent_mean_auroc
        mean_auroc_computed := computed_mean
        fraction_high := fraction_high
        mean_auroc_pass := mean_pass
        fraction_high_pass := fraction_pass
        passed := mean_pass && fraction_pass }

/-! ## Spatial Adjacency and Multiple Choice graders -/

/-- The pass verdict of `SpatialAdjacencyGrader.evaluate_answer`
(`graders/spatial.py` lines 36-41): distances compared with `<=` to their
maxima, percentages with `>=` to their minima, ANDed with the agent's own
`adjacency_pass` value. -/
def SpatialAdjacencyGrader.grade
    (median_ic_to_pc p90_ic_to_pc pct_within_15um pct_mixed_within_55um : ℚ)
    (adjacency_pass : Bool)
    (max_median max_p90 min_pct_15um min_pct_55um : ℚ) : Bool :=
  decide (median_ic_to_pc ≤ max_median) &&
  decide (p90_ic_to_pc ≤ max_p90) &&
  decide (min_pct_15um ≤ pct_within_15um) &&
  decide (min_pct_55um ≤ pct_mixed_within_55um) &&
  adjacency_pass

/-- The pass verdict of `MultipleChoiceGrader.evaluate_answer`
(`graders/multiple_choice.py` lines 6-18): both sides stripped and
upper-cased, then compared for equality. -/
def MultipleChoiceGrader.grade (agent_choice correct_answer : String) : Bool :=
  agent_choice.trim.toUpper == correct_answer.trim.toUpper

/-! ## Grader registry and the runner's grading step
(`graders/__init__.py`, `graders/base.py`, `harness/runner.py`) -/

/-- The grader classes registered in `GRADER_REGISTRY`
(`graders/__init__.py` lines 9-17). -/
inductive GraderType
  | numericTolerance
  | labelSetJaccard
  | distributionComparison
  | markerGenePrecisionRecall
  | markerGeneSeparation
  | spatialAdjacency
  | multipleChoice
deriving DecidableEq, Repr

/-- The registry `GRADER_REGISTRY` (`graders/__init__.py` lines 9-17): grader-type string
to grader class. -/
def GRADER_REGISTRY : List (String × GraderType) :=
  [("numeric_tolerance", .numericTolerance),
   ("label_set_jaccard", .labelSetJaccard),
   ("distribution_comparison", .distributionComparison),
   ("marker_gene_precision_recall", .markerGenePrecisionRecall),
   ("marker_gene_separation", .markerGeneSeparation),
   ("spatial_adjacency", .spatialAdjacency),
   ("multiple_choice", .multipleChoice)]

/-- What the runner keeps of a `GraderResult`: the verdict, and the
`metrics["grader_error"]` entry it adds when the grader raised
(`harness/runner.py` lines 117-122). -/
structure GraderResultR where
  passed : Bool
  grader_error : Option PyError := none
deriving DecidableEq, Repr

/-- All numeric entries of a JSON object, as the numeric graders consume
them; a non-numeric value makes the grader's arithmetic raise. -/
def parseNumEntries : List (String × JVal) → Option (List (String × ℚ))
  | [] => some []
  | (k, v) :: rest => do
      let q ← v.asNum
      let tail ← parseNumEntries rest
      pure ((k, q) :: tail)

/-- One `tolerances` entry `{"type": ..., "value": ...}` with its defaults
(`graders/numeric.py` lines 19-21); a non-string type falls through to the
unrecognised branch, a non-object entry or non-numeric value raises. -/
def parseToleranceEntry : JVal → Option ToleranceConfig
  | .obj f =>
      let t : Option ToleranceType :=
        match List.lookup "type" f with
        | none => some .absolute
        | some (.str s) => some (parseToleranceType s)
        | some _ => some .other
      match t, (match List.lookup "value" f with
                | none => some (0 : ℚ)
                | some v => v.asNum) with
      | some ty, some val => some ⟨ty, val⟩
      | _, _ => none
  | _ => none

/-- All `tolerances` entries of the numeric grader's config. -/
def parseToleranceEntries : List (String × JVal) → Option (List (String × ToleranceConfig))
  | [] => some []
  | (k, v) :: rest => do
      let t ← parseToleranceEntry v
      let tail ← parseToleranceEntries rest
      pure ((k, t) :: tail)

/-- Embeds `NumericToleranceGrader.evaluate_answer` on raw JSON, as the runner calls
it: parse the config and answer objects and run the typed check. Shapes that
make the Python duck-typing raise are coarsened to a single `typeErr`
outcome (the runner catches every grader exception uniformly). -/
def numericEvaluateAnswerJ (answer config : JVal) : PyOutcome GraderResultR :=
  match config with
  | .obj cf =>
      match (List.lookup "ground_truth" cf).getD (.obj []),
            (List.lookup "tolerances" cf).getD (.obj []), answer with
      | .obj gtF, .obj tolF, .obj ansF =>
          match parseNumEntries gtF, parseToleranceEntries tolF, parseNumEntries ansF with
          | some gt, some tols, some ansT =>
              .ok { passed := (NumericToleranceGrader.evaluateAnswer ansT ⟨gt, tols⟩).passed }
          | _, _, _ => .raises .typeErr
      | _, _, _ => .raises .typeErr
  | _ => .raises .typeErr

/-- Embeds `DistributionComparisonGrader.evaluate_answer` on raw JSON: parse the
config and the answer's two required fields and run the typed check, with
the same `typeErr` coarsening as above. -/
def distributionEvaluateAnswerJ (answer config : JVal) : PyOutcome GraderResultR :=
  match config, answer with
  | .obj cf, .obj ansF =>
      match (List.lookup "ground_truth" cf).getD (.obj []),
            (List.lookup "tolerances" cf).getD (.obj []) with
      | .obj gtF, .obj tolF =>
          let gtTotalJ := List.lookup "total_cells" gtF
          let gtDistJ := (List.lookup "cell_type_distribution" gtF).getD (.obj [])
          let totTolJ := (List.lookup "total_cells" tolF).getD (.obj [])
          let pctTolJ := (List.lookup "cell_type_percentages" tolF).getD (.obj [])
          match gtDistJ, totTolJ, pctTolJ with
          | .obj gtDistF, .obj totTolF, .obj pctTolF =>
              let gtTotal : Option (Option ℚ) :=
                match gtTotalJ with
                | none => some none
                | some v => (v.asNum).map some
              let totTol : Option ℚ :=
                match List.lookup "value" totTolF with
                | none => some 0
                | some v => v.asNum
              let pctTol : Option ℚ :=
                match List.lookup "value" pctTolF with
                | none => some 3
                | some v => v.asNum
              let ansTotal : Option (Option ℚ) :=
                match List.lookup "total_cells" ansF with
                | none => some none
                | some v => (v.asNum).map some
              let ansDist : Option (Option (List (String × ℚ))) :=
                match List.lookup "cell_type_distribution" ansF with
                | none => some none
                | some (.obj distF) => (parseNumEntries distF).map some
                | some _ => none
              match gtTotal, totTol, pctTol, parseNumEntries gtDistF, ansTotal, ansDist with
              | some gt, some tt, some pt, some gtDist, some aTotal, some aDist =>
                  .ok { passed :=
                    (DistributionComparisonGrader.evaluateAnswer ⟨aTotal, aDist⟩
                      ⟨gt, gtDist, tt, pt⟩).passed }
              | _, _, _, _, _, _ => .raises .typeErr
          | _, _, _ => .raises .typeErr
      | _, _ => .raises .typeErr
  | _, _ => .raises .typeErr

/-- Python's `str()` of a JSON scalar, for
`str(agent_answer["answer"]).strip().upper()`
(`graders/multiple_choice.py` line 16); container values are rendered by a
placeholder, which no claim depends on. -/
def pyStr : JVal → String
  | .str s => s
  | .num q => toString q
  | .bool b => cond b "True" "False"
  | .null => "None"
  | .arr _ => "<arr>"
  | .obj _ => "<obj>"

/-- Embeds `MultipleChoiceGrader.evaluate_answer` on raw JSON
(`graders/multiple_choice.py` lines 5-32): a missing `answer` field is a
failing result; otherwise the stripped, upper-cased comparison. -/
def multipleChoiceEvaluateAnswerJ (answer config : JVal) : PyOutcome GraderResultR :=
  match config with
  | .obj cf =>
      match (match List.lookup "correct_answer" cf with
             | none => some ""
             | some (.str s) => some s
             | some _ => none), answer with
      | some correct, .obj ansF =>
          match List.lookup "answer" ansF with
          | none => .ok { passed := false }
          | some v => .ok { passed := MultipleChoiceGrader.grade (pyStr v) correct }
      | _, _ => .raises .typeErr
  | _ => .raises .typeErr

/-- Embeds `SpatialAdjacencyGrader.evaluate_answer` on raw JSON
(`graders/spatial.py` lines 4-81): thresholds with their defaults, the
missing-required-fields failing result, Python truthiness for the agent's
`adjacency_pass`, and the typed AND of the four metric checks. -/
def spatialEvaluateAnswerJ (answer config : JVal) : PyOutcome GraderResultR :=
  match config with
  | .obj cf =>
      match (List.lookup "scoring" cf).getD (.obj []) with
      | .obj scF =>
          match (List.lookup "pass_thresholds" scF).getD (.obj []) with
          | .obj thF =>
              let thr : String → ℚ → Option ℚ := fun k d =>
                match List.lookup k thF with
                | none => some d
                | some v => v.asNum
              match thr "max_median_ic_to_pc_um" 25, thr "max_p90_ic_to_pc_um" 80,
                    thr "min_pct_ic_within_15um" 60, thr "min_pct_ic_mixed_within_55um" 60,
                    answer with
              | some maxMed, some maxP90, some min15, some min55, .obj ansF =>
                  match List.lookup "median_ic_to_pc_um" ansF,
                        List.lookup "p90_ic_to_pc_um" ansF,
                        List.lookup "pct_ic_within_15um" ansF,
                        List.lookup "pct_ic_mixed_within_55um" ansF,
                        List.lookup "adjacency_pass" ansF with
                  | some vMed, some vP90, some v15, some v55, some vAdj =>
                      match vMed.asNum, vP90.asNum, v15.asNum, v55.asNum with
                      | some m, some p, some a15, some a55 =>
                          .ok { passed :=
                            (SpatialAdjacencyGrader.grade m p a15 a55 vAdj.truthy
                              maxMed maxP90 min15 min55) }
                      | _, _, _, _ => .raises .typeErr
                  | _, _, _, _, _ => .ok { passed := false }
              | _, _, _, _, _ => .raises .typeErr
          | _ => .raises .typeErr
      | _ => .raises .typeErr
  | _ => .raises .typeErr

/-- The call `grader.evaluate_answer(agent_answer, grader_config)` as the runner
calls it (`harness/runner.py` line 113), per registered class.
`LabelSetJaccardGrader`, `MarkerGenePrecisionRecallGrader` and
`MarkerGeneSeparationGrader` override only `evaluate`
(`graders/label_set.py` line 5, `graders/marker_gene.py` lines 5 and 143),
so their `evaluate_answer` is the inherited `BinaryGrader.evaluate_answer`
(`graders/base.py` lines 26-27), which raises `NotImplementedError`; the
other four classes define `evaluate_answer` themselves. -/
def graderEvaluateAnswer (t : GraderType) (answer config : JVal) :
    PyOutcome GraderResultR :=
  match t with
  | .numericTolerance => numericEvaluateAnswerJ answer config
  | .labelSetJaccard => .raises .notImplementedError
  | .distributionComparison => distributionEvaluateAnswerJ answer config
  | .markerGenePrecisionRecall => .raises .notImplementedError
  | .markerGeneSeparation => .raises .notImplementedError
  | .spatialAdjacency => spatialEvaluateAnswerJ answer config
  | .multipleChoice => multipleChoiceEvaluateAnswerJ answer config

/-- The runner's call into a known grader (`harness/runner.py` lines
112-122): a raising grader is caught and converted into a failing
`GraderResult` carrying the exception. -/
def runnerGradeCall (t : GraderType) (answer config : JVal) : GraderResultR :=
  match graderEvaluateAnswer t answer config with
  | .ok r => r
  | .raises e => { passed := false, grader_error := some e }

/-- The runner's grading phase (`harness/runner.py` lines 100-137):
grading runs only when the spec configures a grader and an answer was
collected; an unknown grader type only prints a warning and leaves
`grader_result = None`. -/
def runnerGradePhase (grader : Option (String × JVal)) (agent_answer : Option JVal) :
    Option GraderResultR :=
  match grader, agent_answer with
  | some g, some ans =>
      match List.lookup g.1 GRADER_REGISTRY with
      | some t => some (runnerGradeCall t ans g.2)
      | none => none
  | _, _ => none

/-- The `passed` field of the runner's result record
(`harness/runner.py` line 153):
`grader_result.passed if grader_result else None`. -/
def runnerRecordPassed (grader : Option (String × JVal)) (agent_answer : Option JVal) :
    Option Bool :=
  (runnerGradePhase grader agent_answer).map (fun r => r.passed)

/-- The count `passed = sum(1 for r in results if r.get("passed") is True)`
(`cli.py` line 230). -/
def batchPassedCount (results : List (Option Bool)) : ℕ :=
  (results.filter (fun p => p == some true)).length

/-- The count `failed = sum(1 for r in results if r.get("passed") is False)`
(`cli.py` line 231). -/
def batchFailedCount (results : List (Option Bool)) : ℕ :=
  (results.filter (fun p => p == some false)).length

/-- The batch total `len(results)` (`cli.py` lines 246 and 270). -/
def batchTotalCount (results : List (Option Bool)) : ℕ :=
  results.length

/-! ## The per-eval control flow of `EvalRunner.run` (`harness/runner.py`) -/

/-- The externally visible steps of one `EvalRunner.run` execution, in
source order: `setup_workspace` (line 30), `download_data` (line 37), the
agent call (line 78), the answer-file fallback (lines 92-98), the grading
phase (lines 100-137) and `cleanup_workspace` (line 143). -/
inductive RunStep
  | setupWorkspace
  | downloadData
  | invokeAgent
  | collectAnswer
  | grade
  | cleanupWorkspace
deriving DecidableEq, Repr

/-- The environment-determined behaviour of one run: whether `latch cp`
fails during data staging, whether the agent function raises, and whether
the grading phase is entered (a grader is configured, an answer was
collected and the grader type is registered). -/
structure RunBehavior where
  fetchFails : Bool
  agentRaises : Bool
  gradeEntered : Bool
deriving DecidableEq, Repr

/-- The step trace of `EvalRunner.run` (`harness/runner.py` lines 20-159)
and the exception it propagates, if any. The body has no try/finally: the
agent call is wrapped in try/except (lines 77-90) and the grader call in
try/except (lines 112-122), so those exceptions are caught and execution
continues, but `download_data` (line 37) is not guarded — a
`subprocess.CalledProcessError` from `latch cp` propagates out of `run`
and none of the later statements, `cleanup_workspace` included, execute. -/
def EvalRunner.runTrace (b : RunBehavior) : List RunStep × Option PyError :=
  if b.fetchFails then
    ([RunStep.setupWorkspace, RunStep.downloadData], some PyError.calledProcessError)
  else
    ([RunStep.setupWorkspace, RunStep.downloadData, RunStep.invokeAgent,
      RunStep.collectAnswer] ++
     (if b.gradeEntered then [RunStep.grade] else []) ++
     [RunStep.cleanupWorkspace], none)

/-! ## The dataset cache (`harness/utils.py`) -/

/-- The filename `Path(uri).name`: the final path component. -/
def pathName (uri : String) : String :=
  (uri.splitOn "/").getLastD uri

/-- The truncated-sha256 prefix of `get_cache_key`
(`harness/utils.py` lines 34-37). The hash itself is not re-implemented:
it is modelled by an injective placeholder, which preserves the property
the cache relies on — the key is a deterministic function of the URI. -/
def uriHashPrefix (uri : String) : String :=
  "sha256." ++ uri

/-- The key `get_cache_key(uri)` (`harness/utils.py` lines 34-37):
hash prefix plus the original filename. -/
def get_cache_key (uri : String) : String :=
  uriHashPrefix uri ++ "__" ++ pathName uri

/-- The shared state `download_single_dataset` touches: the persisted
`manifest.json` contents, the set of files in the cache directory
(cache-relative paths), and two effect counters — remote retrievals
(`latch cp` invocations) and manifest writes. -/
structure CacheState where
  manifest : List (String × String)
  disk : List String
  downloadCount : ℕ
  manifestWriteCount : ℕ
deriving DecidableEq, Repr

/-- Adding a file path to the cache directory. -/
def insertFile (disk : List String) (p : String) : List String :=
  if p ∈ disk then disk else disk ++ [p]

/-- Embeds `download_single_dataset(uri)` run to completion with no interleaving
(`harness/utils.py` lines 39-66): consult the manifest; when the entry is
present and the cached file exists, return it with no further effect;
otherwise run `latch cp` to the deterministic key path, record the mapping
and persist the manifest. Returns the cache-relative path of the file. -/
def download_single_dataset (s : CacheState) (uri : String) : String × CacheState :=
  let hit :=
    match List.lookup uri s.manifest with
    | some key => if key ∈ s.disk then some key else none
    | none => none
  match hit with
  | some key => (key, s)
  | none =>
      let cache_key := get_cache_key uri
      (cache_key,
        { manifest := dictInsert s.manifest uri cache_key
          disk := insertFile s.disk cache_key
          downloadCount := s.downloadCount + 1
          manifestWriteCount := s.manifestWriteCount + 1 })

/-- A worker's position inside `download_single_dataset` when its steps can
interleave with another process (`harness/utils.py` lines 39-66): before the
manifest read; after it, holding the read snapshot `m`; after the download,
still holding `m`; or done, with the returned path and whether it was a
cache hit. -/
inductive WorkerPhase
  | start
  | afterRead (m : List (String × String))
  | afterDownload (m : List (String × String))
  | done (path : String) (hit : Bool)

/-- One atomic step of a worker running `download_single_dataset uri`
against the shared cache: read the manifest (line 41); check the entry and
the file, and on a miss run the download (lines 43-59, the file appears on
disk); then write back the read snapshot plus this worker's entry
(lines 63-64) — a read-modify-write, with no lock acquisition anywhere in
the function. -/
def workerStep (uri : String) (sh : CacheState) (w : WorkerPhase) :
    CacheState × WorkerPhase :=
  match w with
  | .start => (sh, .afterRead sh.manifest)
  | .afterRead m =>
      let hit :=
        match List.lookup uri m with
        | some key => if key ∈ sh.disk then some key else none
        | none => none
      match hit with
      | some key => (sh, .done key true)
      | none =>
          ({ sh with
              disk := insertFile sh.disk (get_cache_key uri)
              downloadCount := sh.downloadCount + 1 },
           .afterDownload m)
  | .afterDownload m =>
      let cache_key := get_cache_key uri
      ({ sh with
          manifest := dictInsert m uri cache_key
          manifestWriteCount := sh.manifestWriteCount + 1 },
       .done cache_key false)
  | .done p h => (sh, .done p h)

/-- Two workers concurrently fetching the same URI, driven by a schedule:
`false` steps worker 1, `true` steps worker 2. -/
def runSchedule (uri : String) (sched : List Bool)
    (st : CacheState × WorkerPhase × WorkerPhase) :
    CacheState × WorkerPhase × WorkerPhase :=
  match sched with
  | [] => st
  | w :: rest =>
      let next :=
        if w then
          let (sh, w2) := workerStep uri st.1 st.2.2
          (sh, st.2.1, w2)
        else
          let (sh, w1) := workerStep uri st.1 st.2.1
          (sh, w1, st.2.2)
      runSchedule uri rest next

/-- An empty cache: no manifest entries, no files, no effects yet. -/
def emptyCache : CacheState :=
  { manifest := [], disk := [], downloadCount := 0, manifestWriteCount := 0 }

/-- Whether a worker finished as a cache hit (reusing an existing file
rather than downloading). -/
def WorkerPhase.finishedHit : WorkerPhase → Option Bool
  | .done _ h => some h
  | _ => none

/-! ## Helper lemmas -/

/-- Association-list lookup distributes over append, left side first. -/
theorem lookup_append {α : Type} (k : String) (l1 l2 : List (String × α)) :
    List.lookup k (l1 ++ l2) = (List.lookup k l1).or (List.lookup k l2) := by
  induction l1 with
  | nil => simp [List.lookup, Option.or]
  | cons hd tl ih =>
      obtain ⟨k', v⟩ := hd
      simp only [List.cons_append, List.lookup]
      cases h : k == k' <;> simp [h, ih, Option.or]

/-- A key that looks up to nothing matches no key of the list. -/
theorem lookup_none_forall {α : Type} (k : String) :
    ∀ l : List (String × α), List.lookup k l = none →
      ∀ p ∈ l, (k == p.1) = false := by
  intro l
  induction l with
  | nil => intro _ p hp; simp at hp
  | cons hd tl ih =>
      obtain ⟨k', v⟩ := hd
      intro h p hp
      simp only [List.lookup] at h
      cases hk : k == k' with
      | true => rw [hk] at h; simp at h
      | false =>
          rw [hk] at h
          rcases List.mem_cons.1 hp with h1 | h2
          · rw [h1]; exact hk
          · exact ih h p h2

/-- Replacing an existing key's value in place makes the key look up to the
new value. -/
theorem lookup_map_replace {α : Type} (k : String) (v : α) :
    ∀ m : List (String × α), m.any (fun p => p.1 == k) = true →
      List.lookup k (m.map (fun p => cond (p.1 == k) (p.1, v) p)) = some v := by
  intro m
  induction m with
  | nil => intro h; simp at h
  | cons hd tl ih =>
      obtain ⟨k', v'⟩ := hd
      intro h
      by_cases hk : k' = k
      · subst hk; simp [List.lookup]
      · have hk' : (k' == k) = false := by simp [hk]
        have hk'' : (k == k') = false := by simp [Ne.symm hk]
        simp only [List.map_cons, hk', cond_false, List.lookup, hk'']
        apply ih
        simpa [hk'] using h

/-- Appending a fresh key's entry makes the key look up to its value. -/
theorem lookup_append_fresh {α : Type} (k : String) (v : α) :
    ∀ m : List (String × α), m.any (fun p => p.1 == k) = false →
      List.lookup k (m ++ [(k, v)]) = some v := by
  intro m
  induction m with
  | nil => simp [List.lookup]
  | cons hd tl ih =>
      obtain ⟨k', v'⟩ := hd
      intro h
      simp only [List.any_cons, Bool.or_eq_false_iff] at h
      have hk : (k == k') = false := by
        rcases h with ⟨h1, _⟩
        simp only [beq_eq_false_iff_ne] at h1 ⊢
        exact fun e => h1 e.symm
      simp only [List.cons_append, List.lookup, hk]
      exact ih (by simpa using h.2)

/-- Inserting with `dictInsert` always makes the inserted key look up to the inserted
value. -/
theorem lookup_dictInsert_self {α : Type} (k : String) (v : α)
    (m : List (String × α)) : List.lookup k (dictInsert m k v) = some v := by
  unfold dictInsert
  split
  next h => exact lookup_map_replace k v m h
  next h =>
    exact lookup_append_fresh k v m (by simp only [Bool.not_eq_true] at h; exact h)

/-- A path is on disk after it was inserted. -/
theorem mem_insertFile_self (disk : List String) (p : String) :
    p ∈ insertFile disk p := by
  unfold insertFile
  split
  next h => exact h
  next => simp

/-- Congruence: `List.all` respects pointwise-equal predicates. -/
theorem all_congr_mem {α : Type} (f g : α → Bool) :
    ∀ l : List α, (∀ x ∈ l, f x = g x) → l.all f = l.all g := by
  intro l
  induction l with
  | nil => simp
  | cons hd tl ih =>
      intro h
      simp only [List.all_cons]
      rw [h hd (by simp), ih (fun x hx => h x (List.mem_cons_of_mem _ hx))]

/-- Whether one configured numeric field passes: present in the answer and
within its tolerance. -/
def numericFieldPass (ans : List (String × ℚ))
    (tols : List (String × ToleranceConfig)) (fe : String × ℚ) : Bool :=
  match List.lookup fe.1 ans with
  | none => false
  | some actual => (checkTolerance actual fe.2 (toleranceFor tols fe.1)).2

/-- The `all_pass` flag of the numeric grader's field loop is the AND of the
per-field verdicts. -/
theorem numeric_foldl_fst (ans : List (String × ℚ))
    (tols : List (String × ToleranceConfig)) :
    ∀ (l : List (String × ℚ)) (b : Bool) (acc : List (String × NumericFieldOutcome)),
      (l.foldl (numericFieldStep ans tols) (b, acc)).1 =
        (b && l.all (numericFieldPass ans tols)) := by
  intro l
  induction l with
  | nil => intro b acc; simp
  | cons hd tl ih =>
      intro b acc
      simp only [List.foldl_cons, List.all_cons]
      cases h : List.lookup hd.1 ans with
      | none => simp [numericFieldStep, numericFieldPass, h, ih]
      | some actual => simp [numericFieldStep, numericFieldPass, h, ih, Bool.and_assoc]

/-- The `all_pass` flag of the distribution grader's category loop is the
AND of the start flag with the per-category verdicts. -/
theorem dist_foldl_fst (d : List (String × ℚ)) (tol : ℚ) :
    ∀ (l : List (String × ℚ)) (b : Bool) (fs : List DistFailure)
      (cs : List (String × Bool)),
      (l.foldl (distCategoryStep d tol) (b, fs, cs)).1 =
        (b && l.all (fun ce => categoryCheck d tol ce.1 ce.2)) := by
  intro l
  induction l with
  | nil => intro b fs cs; simp
  | cons hd tl ih =>
      intro b fs cs
      simp only [List.foldl_cons, List.all_cons]
      cases h : List.lookup hd.1 d with
      | none => simp [distCategoryStep, categoryCheck, h, ih]
      | some actual => simp [distCategoryStep, categoryCheck, h, ih, Bool.and_assoc]

/-! ## Claim theorems -/

/-- Claim C1, counterexample: in the run where `latch cp` fails during data
staging, the raised error propagates out of `EvalRunner.run` and the cleanup
step never executes — the claimed guaranteed execution of `CLEANUP` on every
exit path is false. -/
theorem C1_claim_counterexample :
    RunStep.cleanupWorkspace ∉
      (EvalRunner.runTrace
        { fetchFails := true, agentRaises := false, gradeEntered := false }).1 ∧
    (EvalRunner.runTrace
        { fetchFails := true, agentRaises := false, gradeEntered := false }).2 =
      some PyError.calledProcessError := by
  decide

/-- Claim C1 (amended): `cleanup_workspace` executes on every path of
`EvalRunner.run` on which data staging succeeds — agent and grader
exceptions are caught, so those paths still reach cleanup — but a
dataset-fetch failure during data staging propagates out of `run` before
the cleanup step, which then does not execute. -/
theorem C1_cleanup_paths : ∀ b : RunBehavior,
    (b.fetchFails = false →
      RunStep.cleanupWorkspace ∈ (EvalRunner.runTrace b).1 ∧
      (EvalRunner.runTrace b).2 = none) ∧
    (b.fetchFails = true →
      RunStep.cleanupWorkspace ∉ (EvalRunner.runTrace b).1 ∧
      (EvalRunner.runTrace b).2 = some PyError.calledProcessError) := by
  intro b
  obtain ⟨f, a, g⟩ := b
  cases f <;> cases a <;> cases g <;> decide

/-- Claim C2: for every agent answer and grader config, the runner's grading
step with grader type `label_set_jaccard`, `marker_gene_precision_recall` or
`marker_gene_separation` produces a failing result regardless of the
answer's content: these classes override only `evaluate`, so the runner's
`evaluate_answer` call raises `NotImplementedError`, which the runner
catches and converts into `passed=False` carrying the exception. -/
theorem C2_transcript_graders_never_pass :
    (∀ answer config : JVal,
        runnerGradePhase (some ("label_set_jaccard", config)) (some answer) =
          some { passed := false, grader_error := some PyError.notImplementedError }) ∧
    (∀ answer config : JVal,
        runnerGradePhase (some ("marker_gene_precision_recall", config)) (some answer) =
          some { passed := false, grader_error := some PyError.notImplementedError }) ∧
    (∀ answer config : JVal,
        runnerGradePhase (some ("marker_gene_separation", config)) (some answer) =
          some { passed := false, grader_error := some PyError.notImplementedError }) :=
  ⟨fun _ _ => rfl, fun _ _ => rfl, fun _ _ => rfl⟩

/-- Claim C7: a TaskSpec naming a grader type absent from the registry does
not abort the run — grading is skipped and the record's `passed` is `None`;
`passed` is `True`/`False` only when grading actually ran; and the batch
summary counts such an eval in the total while excluding it from both the
passed and the failed counts. -/
theorem C7_unknown_grader_nonfatal :
    (∀ (gtype : String) (gconfig ans : JVal),
        List.lookup gtype GRADER_REGISTRY = none →
        runnerRecordPassed (some (gtype, gconfig)) (some ans) = none) ∧
    (∀ (grader : Option (String × JVal)) (ans : Option JVal) (b : Bool),
        runnerRecordPassed grader ans = some b →
        ∃ gtype gconfig a t, grader = some (gtype, gconfig) ∧ ans = some a ∧
          List.lookup gtype GRADER_REGISTRY = some t ∧
          (runnerGradeCall t a gconfig).passed = b) ∧
    runnerRecordPassed (some ("cluster_quality", JVal.obj [])) (some (JVal.obj [])) =
      none ∧
    (∀ l1 l2 : List (Option Bool),
        batchTotalCount (l1 ++ none :: l2) = batchTotalCount (l1 ++ l2) + 1 ∧
        batchPassedCount (l1 ++ none :: l2) = batchPassedCount (l1 ++ l2) ∧
        batchFailedCount (l1 ++ none :: l2) = batchFailedCount (l1 ++ l2)) := by
  refine ⟨?_, ?_, rfl, ?_⟩
  · intro gtype gconfig ans h
    simp [runnerRecordPassed, runnerGradePhase, h]
  · intro grader ans b h
    match grader, ans with
    | none, _ => simp [runnerRecordPassed, runnerGradePhase] at h
    | some g, none => simp [runnerRecordPassed, runnerGradePhase] at h
    | some (gtype, gconfig), some a =>
        cases hl : List.lookup gtype GRADER_REGISTRY with
        | none => simp [runnerRecordPassed, runnerGradePhase, hl] at h
        | some t =>
            refine ⟨gtype, gconfig, a, t, rfl, rfl, hl, ?_⟩
            simp [runnerRecordPassed, runnerGradePhase, hl] at h
            exact h
  · intro l1 l2
    refine ⟨?_, ?_, ?_⟩
    · simp only [batchTotalCount, List.length_append, List.length_cons]
      omega
    · simp [batchPassedCount, List.filter_append, List.filter_cons,
        show ((none : Option Bool) == some true) = false from rfl]
    · simp [batchFailedCount, List.filter_append, List.filter_cons,
        show ((none : Option Bool) == some false) = false from rfl]

/-- Claim C6: the Numeric Tolerance grader scores each configured field by
tolerance type — absolute by `|actual-expected|` against the value, relative
by `|actual-expected|/|expected|` with infinite error when `expected = 0`,
min passing iff `actual ≥ expected`, max passing iff `actual ≤ expected` —
passes overall iff every configured field passes, and the concrete scenario
`ground_truth total_cells=1000`, absolute tolerance `50`, answer `1030`
passes with error `30`. -/
theorem C6_numeric_tolerance_rules :
    (∀ a e v : ℚ, checkTolerance a e ⟨ToleranceType.absolute, v⟩ =
        (ErrorValue.fin |a - e|, decide (|a - e| ≤ v))) ∧
    (∀ a e v : ℚ, checkTolerance a e ⟨ToleranceType.relative, v⟩ =
        if e = 0 then (ErrorValue.inf, false)
        else (ErrorValue.fin (|a - e| / |e|), decide (|a - e| / |e| ≤ v))) ∧
    (∀ a e v : ℚ, (checkTolerance a e ⟨ToleranceType.minimum, v⟩).2 = decide (e ≤ a)) ∧
    (∀ a e v : ℚ, (checkTolerance a e ⟨ToleranceType.maximum, v⟩).2 = decide (a ≤ e)) ∧
    (∀ (ans : List (String × ℚ)) (cfg : NumericConfig),
        (NumericToleranceGrader.evaluateAnswer ans cfg).passed = true ↔
          ∀ fe ∈ cfg.ground_truth, ∃ actual,
            List.lookup fe.1 ans = some actual ∧
            (checkTolerance actual fe.2 (toleranceFor cfg.tolerances fe.1)).2 = true) ∧
    NumericToleranceGrader.evaluateAnswer [("total_cells", 1030)]
        ⟨[("total_cells", 1000)], [("total_cells", ⟨ToleranceType.absolute, 50⟩)]⟩ =
      { passed := true,
        fields := [("total_cells", NumericFieldOutcome.checked (ErrorValue.fin 30) true)] } := by
  refine ⟨fun a e v => rfl, fun a e v => rfl, fun a e v => rfl, fun a e v => rfl, ?_, ?_⟩
  · intro ans cfg
    show (cfg.ground_truth.foldl (numericFieldStep ans cfg.tolerances) (true, [])).1 = true ↔ _
    rw [numeric_foldl_fst, Bool.true_and, List.all_eq_true]
    refine forall_congr' fun fe => forall_congr' fun hfe => ?_
    cases h : List.lookup fe.1 ans with
    | none => simp [numericFieldPass, h]
    | some actual => simp [numericFieldPass, h]
  · have habs : |(1030 : ℚ) - 1000| = 30 := by norm_num
    have hle : |(1030 : ℚ) - 1000| ≤ 50 := by norm_num
    simp [NumericToleranceGrader.evaluateAnswer, numericFieldStep, toleranceFor,
      checkTolerance, List.lookup, habs, hle]
    norm_num

/-- Claim C9: fetching the same URI twice in sequence performs the remote
retrieval and the manifest write exactly once — the first call (on a URI
with no manifest entry) downloads once, records the key and persists the
manifest once; the second call consults the manifest, finds the cached file
on disk and returns the same path with no state change at all (no download,
no manifest write). -/
theorem C9_cache_fetch_idempotent :
    (∀ (s : CacheState) (uri : String),
        download_single_dataset (download_single_dataset s uri).2 uri =
          download_single_dataset s uri) ∧
    (∀ (s : CacheState) (uri : String), List.lookup uri s.manifest = none →
        (download_single_dataset s uri).2.downloadCount = s.downloadCount + 1 ∧
        (download_single_dataset s uri).2.manifestWriteCount =
          s.manifestWriteCount + 1 ∧
        (download_single_dataset s uri).1 = get_cache_key uri ∧
        (download_single_dataset s uri).2.manifest =
          dictInsert s.manifest uri (get_cache_key uri)) := by
  constructor
  · intro s uri
    cases h : List.lookup uri s.manifest with
    | some key =>
        by_cases hd : key ∈ s.disk
        · simp [download_single_dataset, h, hd]
        · simp [download_single_dataset, h, hd, lookup_dictInsert_self,
            mem_insertFile_self]
    | none =>
        simp [download_single_dataset, h, lookup_dictInsert_self,
          mem_insertFile_self]
  · intro s uri h
    simp [download_single_dataset, h]

/-- Claim C3, failing execution: two workers performing a first-time fetch
of the same URI, each reading the manifest before the other writes it, both
run the remote download — there is no per-key lock and no
download-to-temp/atomic-rename discipline in `download_single_dataset`, so
the losing racer does not reuse the winner's result (both finish with
`hit = false` and the download ran twice), whereas the same two fetches in
sequence download exactly once. -/
theorem C3_same_uri_race_two_downloads : ∀ uri : String,
    ((runSchedule uri [false, true, false, true, false, true]
        (emptyCache, WorkerPhase.start, WorkerPhase.start)).1.downloadCount = 2 ∧
     (runSchedule uri [false, true, false, true, false, true]
        (emptyCache, WorkerPhase.start, WorkerPhase.start)).2.1.finishedHit =
       some false ∧
     (runSchedule uri [false, true, false, true, false, true]
        (emptyCache, WorkerPhase.start, WorkerPhase.start)).2.2.finishedHit =
       some false) ∧
    (download_single_dataset (download_single_dataset emptyCache uri).2
        uri).2.downloadCount = 1 := by
  intro uri
  constructor
  · simp [runSchedule, workerStep, emptyCache, insertFile, List.lookup,
      WorkerPhase.finishedHit]
  · simp [download_single_dataset, emptyCache, List.lookup,
      lookup_dictInsert_self, mem_insertFile_self]

/-- Claim C10: in the Marker Gene Precision/Recall grader, precision@k is 0
when `k = 0` (guarded, not a division fault) and recall@k is 0 when the
canonical set is empty; otherwise `precision@k = |TP|/k` and
`recall@k = |TP|/|canonical|` under case-insensitive matching — checked also
on the spec's Scenario D instance. -/
theorem C10_precision_recall_guards :
    (∀ (canonical : List String) (pt rt : ℚ),
        (MarkerGenePrecisionRecallGrader.grade [] canonical pt rt).precision_at_k = 0) ∧
    (∀ (predicted : List String) (pt rt : ℚ),
        (MarkerGenePrecisionRecallGrader.grade predicted [] pt rt).recall_at_k = 0) ∧
    (∀ (predicted canonical : List String) (pt rt : ℚ),
        (predicted ≠ [] →
          (MarkerGenePrecisionRecallGrader.grade predicted canonical pt rt).precision_at_k =
            ((lowerSet canonical ∩ lowerSet predicted).card : ℚ) /
              (predicted.length : ℚ)) ∧
        (canonical ≠ [] →
          (MarkerGenePrecisionRecallGrader.grade predicted canonical pt rt).recall_at_k =
            ((lowerSet canonical ∩ lowerSet predicted).card : ℚ) /
              ((lowerSet canonical).card : ℚ))) ∧
    (MarkerGenePrecisionRecallGrader.grade ["cd3", "cd19", "cd8"]
        ["CD3", "CD8", "CD4"] (6/10) (5/10)).passed = true := by
  refine ⟨?_, ?_, ?_, ?_⟩
  · intro canonical pt rt
    simp [MarkerGenePrecisionRecallGrader.grade]
  · intro predicted pt rt
    simp [MarkerGenePrecisionRecallGrader.grade, lowerSet]
  · intro predicted canonical pt rt
    constructor
    · intro h
      have hk : 0 < predicted.length := List.length_pos.mpr h
      simp [MarkerGenePrecisionRecallGrader.grade, hk]
    · intro h
      have hc : 0 < (lowerSet canonical).card := by
        rcases List.exists_mem_of_ne_nil canonical h with ⟨a, ha⟩
        exact Finset.card_pos.mpr
          ⟨pyLower a, List.mem_toFinset.mpr (List.mem_map_of_mem _ ha)⟩
      simp [MarkerGenePrecisionRecallGrader.grade, hc]
  · have h1 : (lowerSet ["CD3", "CD8", "CD4"] ∩ lowerSet ["cd3", "cd19", "cd8"]).card = 2 := by
      decide
    have h3 : (lowerSet ["CD3", "CD8", "CD4"]).card = 3 := by decide
    simp only [MarkerGenePrecisionRecallGrader.grade]
    norm_num [h1, h3]

/-- Claim C5: in the Marker Gene Separation grader, for every well-formed
answer, the pass decision compares the agent-reported `mean_auroc` (not the
independently recomputed mean) against the mean threshold, the recomputed
mean is recorded only as a diagnostic, and the grader passes iff the
agent-reported mean clears `mean_threshold` and the fraction of genes with
auroc at least `per_gene_cutoff` clears `fraction_threshold`; the concrete
instance shows a pass although the recomputed mean is below the mean
threshold. -/
theorem C5_separation_uses_agent_mean :
    (∀ (per_gene_stats : List (String × ℚ)) (agent_mean mth fth cutoff : ℚ),
      (per_gene_stats = [] →
          MarkerGeneSeparationGrader.grade per_gene_stats agent_mean mth fth cutoff =
            Except.error "per_gene_stats is empty") ∧
      (per_gene_stats ≠ [] →
          ∃ r, MarkerGeneSeparationGrader.grade per_gene_stats agent_mean mth fth cutoff =
              Except.ok r ∧
            r.mean_auroc_pass = decide (mth ≤ agent_mean) ∧
            r.fraction_high =
              (((buildGeneAurocs per_gene_stats).filter
                  (fun p => decide (cutoff ≤ p.2))).length : ℚ) /
                (per_gene_stats.length : ℚ) ∧
            r.mean_auroc_computed =
              ((buildGeneAurocs per_gene_stats).map Prod.snd).sum /
                ((buildGeneAurocs per_gene_stats).length : ℚ) ∧
            r.passed = (decide (mth ≤ agent_mean) &&
              decide (fth ≤ r.fraction_high)))) ∧
    MarkerGeneSeparationGrader.grade [("CD3", 86/100)] (95/100) (9/10) (7/10) (8/10) =
      Except.ok
        { num_genes := 1
          mean_auroc_agent := 95/100
          mean_auroc_computed := 86/100
          fraction_high := 1
          mean_auroc_pass := true
          fraction_high_pass := true
          passed := true } := by
  constructor
  · intro per_gene_stats agent_mean mth fth cutoff
    constructor
    · intro h
      subst h
      rfl
    · intro h
      have hlen : ¬ per_gene_stats.length = 0 := by simpa using h
      unfold MarkerGeneSeparationGrader.grade
      rw [if_neg hlen]
      exact ⟨_, rfl, rfl, rfl, rfl, rfl⟩
  · have hm : ((9 : ℚ)/10 ≤ 95/100) := by norm_num
    have hc : ((8 : ℚ)/10 ≤ 86/100) := by norm_num
    simp [MarkerGeneSeparationGrader.grade, buildGeneAurocs, dictInsert,
      List.filter, hm, hc]
    norm_num

/-- Claim C4: in the Distribution Comparison grader, for every answer with
the required fields, the overall verdict is the AND of the total-cells check
(when configured) with the per-category checks over ground-truth categories
only; categories present only in the answer are reported in the metrics and
the failure list but never change `passed` — appending such a category to
any answer leaves `passed` unchanged. -/
theorem C4_distribution_extra_categories_informational :
    ∀ (total : ℚ) (dist : List (String × ℚ)) (cfg : DistributionConfig),
    ∃ r, DistributionComparisonGrader.evaluateAnswer ⟨some total, some dist⟩ cfg =
        DistributionOutcome.graded r ∧
      r.passed =
        ((cfg.gt_total_cells.map
            (fun gt => decide (|total - gt| ≤ cfg.total_cells_tol))).getD true &&
         cfg.gt_distribution.all
            (fun ce => categoryCheck dist cfg.pct_tolerance ce.1 ce.2)) ∧
      r.extra_cell_types = extraCellTypes dist cfg.gt_distribution ∧
      (r.extra_cell_types ≠ [] →
        DistFailure.extraTypes r.extra_cell_types ∈ r.failures) ∧
      (∀ (ct : String) (pct : ℚ), List.lookup ct cfg.gt_distribution = none →
        ∀ r', DistributionComparisonGrader.evaluateAnswer
            ⟨some total, some (dist ++ [(ct, pct)])⟩ cfg =
              DistributionOutcome.graded r' →
          r'.passed = r.passed) := by
  intro total dist cfg
  refine ⟨_, rfl, ?_, rfl, ?_, ?_⟩
  · exact dist_foldl_fst dist cfg.pct_tolerance cfg.gt_distribution _ _ _
  · intro hne
    refine List.mem_append_right _ ?_
    rw [if_neg hne]
    exact List.mem_singleton.mpr rfl
  · intro ct pct hct r' hr'
    simp only [DistributionComparisonGrader.evaluateAnswer,
      DistributionOutcome.graded.injEq] at hr'
    rw [← hr']
    have hall : cfg.gt_distribution.all
        (fun ce => categoryCheck (dist ++ [(ct, pct)]) cfg.pct_tolerance ce.1 ce.2) =
        cfg.gt_distribution.all
        (fun ce => categoryCheck dist cfg.pct_tolerance ce.1 ce.2) := by
      apply all_congr_mem
      intro ce hce
      have hk : (ce.1 == ct) = false := by
        have h0 := lookup_none_forall ct cfg.gt_distribution hct ce hce
        simp only [beq_eq_false_iff_ne] at h0 ⊢
        exact fun e => h0 e.symm
      unfold categoryCheck
      rw [lookup_append]
      have hnone : List.lookup ce.1 [(ct, pct)] = none := by
        simp [List.lookup, hk]
      rw [hnone, Option.or_none]
    refine (dist_foldl_fst _ _ _ _ _ _).trans
      (Eq.trans ?_ (dist_foldl_fst _ _ _ _ _ _).symm)
    exact congrArg
      (fun x => ((cfg.gt_total_cells.map
        (fun gt => decide (|total - gt| ≤ cfg.total_cells_tol))).getD true) && x)
      hall

/-- Claim C8, counterexample: when both the predicted and the ground-truth
label sets are empty, the grader's Jaccard index is `0.0` by the
empty-union convention, yet the sets are equal — so the claimed
"equals 1 iff the two sets are equal" is false at that input. -/
theorem C8_claim_counterexample :
    ¬ (jaccardIndex (∅ : Finset String) (∅ : Finset String) = 1 ↔
        (∅ : Finset String) = (∅ : Finset String)) := by
  norm_num [jaccardIndex]

/-- Claim C8 (amended): for every predicted and ground-truth label set, the
Jaccard index lies in `[0, 1]`; it equals `1` iff the two sets are equal
and non-empty (when both are empty the empty-union convention yields `0`
instead); it is `0` whenever the sets are disjoint and both non-empty; and
it is `0` by convention when both sets are empty. -/
theorem C8_jaccard_range_and_extremes :
    ∀ predicted ground_truth : Finset String,
      0 ≤ jaccardIndex predicted ground_truth ∧
      jaccardIndex predicted ground_truth ≤ 1 ∧
      (jaccardIndex predicted ground_truth = 1 ↔
        (predicted = ground_truth ∧ predicted.Nonempty)) ∧
      (predicted.Nonempty → ground_truth.Nonempty →
        ground_truth ∩ predicted = ∅ →
        jaccardIndex predicted ground_truth = 0) ∧
      (predicted = ∅ → ground_truth = ∅ →
        jaccardIndex predicted ground_truth = 0) := by
  intro p g
  refine ⟨?_, ?_, ?_, ?_, ?_⟩
  · simp only [jaccardIndex]
    split
    · positivity
    · exact le_refl 0
  · simp only [jaccardIndex]
    split
    next hu =>
      apply div_le_one_of_le₀
      · exact_mod_cast Finset.card_le_card Finset.inter_subset_union
      · positivity
    next => exact zero_le_one
  · constructor
    · intro h1
      simp only [jaccardIndex] at h1
      split at h1
      next hu =>
        have hne : (((g ∪ p).card : ℚ)) ≠ 0 := by
          exact_mod_cast Nat.pos_iff_ne_zero.mp hu
        rw [div_eq_one_iff_eq hne] at h1
        have hcard : (g ∪ p).card ≤ (g ∩ p).card := by
          have : ((g ∩ p).card : ℚ) = ((g ∪ p).card : ℚ) := h1
          exact_mod_cast this.ge
        have hsub : g ∩ p = g ∪ p :=
          Finset.eq_of_subset_of_card_le Finset.inter_subset_union hcard
        have hpg : p = g := by
          apply Finset.Subset.antisymm
          · intro x hx
            have hxu : x ∈ g ∪ p := Finset.mem_union_right _ hx
            rw [← hsub] at hxu
            exact (Finset.mem_inter.mp hxu).1
          · intro x hx
            have hxu : x ∈ g ∪ p := Finset.mem_union_left _ hx
            rw [← hsub] at hxu
            exact (Finset.mem_inter.mp hxu).2
        refine ⟨hpg, ?_⟩
        rcases Finset.card_pos.mp hu with ⟨x, hx⟩
        rcases Finset.mem_union.mp hx with hxg | hxp
        · exact ⟨x, hpg ▸ hxg⟩
        · exact ⟨x, hxp⟩
      next => exact absurd h1 (by norm_num)
    · rintro ⟨hpg, hne⟩
      subst hpg
      have hc : 0 < p.card := Finset.card_pos.mpr hne
      simp only [jaccardIndex, Finset.union_self, Finset.inter_self]
      rw [if_pos hc]
      exact div_self (by exact_mod_cast hc.ne')
  · intro hp hg hint
    simp only [jaccardIndex, hint]
    split <;> simp
  · intro hp hg
    subst hp
    subst hg
    simp [jaccardIndex]

end SpatialBench
